import Mathlib

/-!
# The question form of the IAQ analysis front-end

A shallow embedding of `frontend/src/components/QuestionForm.js`.

The component keeps three pieces of React state (`question`, `answer`,
`loading`).  Its only operation, the async function `askQuestion`, is split at
its single `await` into the part that runs synchronously inside the click
handler (`askQuestionStart`) and the continuation that runs when the promise
returned by `axios.post` settles (`askQuestionResume`).  The continuation is
taken as one atomic event.

JavaScript values are modelled by `JSValue`: `undefined` and the values a
JSON body can hold.  Strings are Lean strings; numbers are the safe integers,
which are exact as doubles and print as their decimal digits.
-/

namespace QuestionForm

/-! ## JavaScript values -/

/-- The numbers of the model: integers of absolute value below `2 ^ 53`.
Each is exactly one double, and `Number::toString` prints it as its decimal
digits (no exponent, no rounding). -/
structure SafeInt where
  val : Int
  safe : val.natAbs < 2 ^ 53

/-- JavaScript values that can flow through the component: the value of
`response`, of `response.data`, of the `answer` state and of a caught error. -/
inductive JSValue where
  | undefined
  | null
  | bool (b : Bool)
  | num (n : SafeInt)
  | str (s : String)
  | arr (items : List JSValue)
  | obj (fields : List (String × JSValue))

namespace JSValue

/-- The value thrown by a property access on `undefined` or `null`. -/
def typeError : JSValue :=
  .obj [("name", .str "TypeError")]

/-- JavaScript `ToBoolean`, as used by `!x` and `x && y`. -/
def truthy : JSValue → Bool
  | .undefined => false
  | .null => false
  | .bool b => b
  | .num n => n.val != 0
  | .str s => s != ""
  | .arr _ => true
  | .obj _ => true

/-- Property read `v.key` for a key that no built-in prototype defines (the
component only reads `data` and `answer`): it throws on `undefined` and
`null`, yields the own property of an object or `undefined` when the object
has none, and yields `undefined` on an array or any other primitive. -/
def getProp (v : JSValue) (key : String) : Except JSValue JSValue :=
  match v with
  | .undefined => .error typeError
  | .null => .error typeError
  | .obj fields => .ok ((fields.lookup key).getD .undefined)
  | _ => .ok .undefined

end JSValue

open JSValue

/-! ## `String.prototype.trim` -/

/-- The code points removed by `String.prototype.trim`: ECMAScript `WhiteSpace`
(TAB, VT, FF, ZWNBSP and the Unicode space separators) and `LineTerminator`
(LF, CR, LS, PS). -/
def isJSWhiteSpace (c : Char) : Bool :=
  let n := c.toNat
  n == 0x09 || n == 0x0A || n == 0x0B || n == 0x0C || n == 0x0D || n == 0x20
    || n == 0xA0 || n == 0x1680 || (0x2000 ≤ n && n ≤ 0x200A)
    || n == 0x2028 || n == 0x2029 || n == 0x202F || n == 0x205F
    || n == 0x3000 || n == 0xFEFF

/-- The method `s.trim()`: strip white space from both ends. -/
def jsTrim (s : String) : String :=
  String.mk ((s.data.dropWhile isJSWhiteSpace).rdropWhile isJSWhiteSpace)

/-! ## Component state -/

/-- The three `useState` cells of `QuestionForm`. -/
structure FormState where
  question : String
  answer : JSValue
  loading : Bool

/-- State on mount: `useState('')`, `useState('')`, `useState(false)`. -/
def mount : FormState :=
  { question := "", answer := .str "", loading := false }

/-- The setter `setQuestion(v)`. -/
def setQuestion (v : String) (s : FormState) : FormState :=
  { s with question := v }

/-- The setter `setAnswer(v)`. -/
def setAnswer (v : JSValue) (s : FormState) : FormState :=
  { s with answer := v }

/-- The setter `setLoading(b)`. -/
def setLoading (b : Bool) (s : FormState) : FormState :=
  { s with loading := b }

/-! ## Outbound requests -/

/-- An HTTP request handed to the network layer. -/
structure Request where
  method : String
  url : String
  data : JSValue

/-- The call `axios.post(url, data)`: a POST request to `url` carrying `data`. -/
def axiosPost (url : String) (data : JSValue) : Request :=
  { method := "POST", url := url, data := data }

/-- The template literal `${process.env.REACT_APP_API_URL}/ask`; an unset
variable is `undefined` and prints as such. -/
def askUrl (apiUrl : Option String) : String :=
  apiUrl.getD "undefined" ++ "/ask"

/-- How the promise returned by `axios.post` settles. -/
inductive Outcome where
  | fulfilled (response : JSValue)
  | rejected (error : JSValue)

/-! ## `askQuestion` -/

/-- The fixed text shown when the request fails. -/
def errorMessage : String := "Error contacting server."

/-- Lines 10-15 of `askQuestion`, up to the `await`: the guard, the two state
writes and the request.  Returns the new state and the requests issued. -/
def askQuestionStart (apiUrl : Option String) (s : FormState) :
    FormState × List Request :=
  if !(JSValue.str (jsTrim s.question)).truthy then (s, [])
  else
    let s1 := setLoading true s
    let s2 := setAnswer (.str "") s1
    (s2, [axiosPost (askUrl apiUrl) (.obj [("question", .str s.question)])])

/-- The `try` block after the `await` (lines 15-16): a rejected promise throws
at the `await`; otherwise `response.data.answer` is read and stored. -/
def tryBlock (o : Outcome) (s : FormState) : Except JSValue FormState :=
  match o with
  | .rejected error => .error error
  | .fulfilled response => do
    let data ← response.getProp "data"
    let answer ← data.getProp "answer"
    pure (setAnswer answer s)

/-- The `catch` block (lines 18-19): store the fixed message and log the
error.  Returns the new state and the values passed to `console.error`. -/
def catchBlock (error : JSValue) (s : FormState) : FormState × List JSValue :=
  (setAnswer (.str errorMessage) s, [error])

/-- The `finally` block (line 21). -/
def finallyBlock (s : FormState) : FormState :=
  setLoading false s

/-- The continuation of `askQuestion` after the `await` (lines 15-22), run on
the state current at that moment. -/
def askQuestionResume (o : Outcome) (s : FormState) : FormState × List JSValue :=
  match tryBlock o s with
  | .ok s1 => (finallyBlock s1, [])
  | .error error =>
    let r := catchBlock error s
    (finallyBlock r.1, r.2)

/-- Result of one complete, uninterrupted `askQuestion`. -/
structure Completed where
  form : FormState
  requests : List Request
  logged : List JSValue

/-- One click on the button awaited to completion against `endpoint`, with no
other event in between. -/
def askQuestion (apiUrl : Option String) (endpoint : Request → Outcome)
    (s : FormState) : Completed :=
  match askQuestionStart apiUrl s with
  | (s1, []) => { form := s1, requests := [], logged := [] }
  | (s1, req :: rest) =>
    let r := askQuestionResume (endpoint req) s1
    { form := r.1, requests := req :: rest, logged := r.2 }

/-! ## Rendering -/

/-- What the expression `{answer && (<div>...</div>)}` evaluates to: the falsy
value of `answer` itself, or the response block with its heading and the child
`{answer}`. -/
inductive Slot where
  | value (v : JSValue)
  | response (heading : String) (content : JSValue)

/-- The parts of the rendered output that depend on state. -/
structure View where
  textarea : String
  button : String
  slot : Slot

/-- The JSX returned by `QuestionForm` (lines 25-45). -/
def render (s : FormState) : View :=
  { textarea := s.question
    button := if s.loading then "Asking..." else "Ask AI"
    slot := if s.answer.truthy then .response "AI's Response:" s.answer
            else .value s.answer }

mutual

/-- Text React puts in the DOM for a child value: strings and numbers as
text, `undefined`, `null` and booleans as nothing, an array item by item; a
plain object is not a valid child and makes rendering throw (`none`). -/
def reactText : JSValue → Option String
  | .str s => some s
  | .num n => some (toString n.val)
  | .undefined => some ""
  | .null => some ""
  | .bool _ => some ""
  | .arr items => reactTextList items
  | .obj _ => none

/-- Text for a list of children, in order; rendering throws if any throws. -/
def reactTextList : List JSValue → Option String
  | [] => some ""
  | v :: vs =>
    match reactText v, reactTextList vs with
    | some a, some b => some (a ++ b)
    | _, _ => none

end

/-- Whether the response block is rendered. -/
def Slot.isResponse : Slot → Bool
  | .response _ _ => true
  | .value _ => false

/-- Heading of the response block, when rendered. -/
def Slot.heading : Slot → Option String
  | .response h _ => some h
  | .value _ => none

/-- Text shown under the heading of the response block, when rendered. -/
def Slot.shownText : Slot → Option String
  | .response _ c => reactText c
  | .value _ => none

/-! ## The form as a transition system -/

/-- Component state together with the requests still in flight and the
values written to the console so far. -/
structure World where
  form : FormState
  pending : List Request
  logged : List JSValue

/-- The world right after the component mounts. -/
def mountWorld : World :=
  { form := mount, pending := [], logged := [] }

/-- Things that can happen to a mounted form. -/
inductive Event where
  | keystroke (value : String)
  | submit
  | resolve (i : Nat) (o : Outcome)

/-- One event.  `keystroke v` is the textarea's `onChange` (line 31), `submit`
is the button's `onClick` (line 34) and `resolve i o` settles the `i`-th
outstanding request with outcome `o`, running the continuation of the
`askQuestion` call that issued it; it is enabled only if that request
exists. -/
def step (apiUrl : Option String) (w : World) : Event → Option World
  | .keystroke v => some { w with form := setQuestion v w.form }
  | .submit =>
    let r := askQuestionStart apiUrl w.form
    some { w with form := r.1, pending := w.pending ++ r.2 }
  | .resolve i o =>
    if i < w.pending.length then
      let r := askQuestionResume o w.form
      some { form := r.1, pending := w.pending.eraseIdx i, logged := w.logged ++ r.2 }
    else none

/-- Run a sequence of events; `none` if one of them is not enabled. -/
def run (apiUrl : Option String) (w : World) : List Event → Option World
  | [] => some w
  | e :: es =>
    match step apiUrl w e with
    | some w1 => run apiUrl w1 es
    | none => none

/-- The worlds visited by a run, the starting one included. -/
def trace (apiUrl : Option String) (w : World) : List Event → List World
  | [] => [w]
  | e :: es =>
    match step apiUrl w e with
    | some w1 => w :: trace apiUrl w1 es
    | none => [w]

/-- Worlds reachable from mount. -/
inductive Reachable (apiUrl : Option String) : World → Prop where
  | mount : Reachable apiUrl mountWorld
  | step {w w1 : World} (e : Event) :
      Reachable apiUrl w → step apiUrl w e = some w1 → Reachable apiUrl w1

/-- Whether a click in state `s` passes the guard on line 10. -/
def accepted (s : FormState) : Bool :=
  !(!(JSValue.str (jsTrim s.question)).truthy)

/-- Events that neither issue nor settle a request when they occur starting
from `w`: keystrokes, and clicks stopped by the guard. -/
def quiet (w : World) : List Event → Bool
  | [] => true
  | .keystroke v :: es => quiet { w with form := setQuestion v w.form } es
  | .submit :: es => !accepted w.form && quiet w es
  | .resolve _ _ :: _ => false

/-- A well-formed success response `{ data: { answer: a } }`. -/
def answerResponse (a : String) : JSValue :=
  .obj [("data", .obj [("answer", .str a)])]

/-- The value the continuation stores in `answer` for outcome `o`. -/
def written (o : Outcome) : JSValue :=
  (askQuestionResume o mount).1.answer

/-! ## Basic facts -/

theorem guard_stops_iff (s : FormState) :
    (!(JSValue.str (jsTrim s.question)).truthy) = true ↔ jsTrim s.question = "" := by
  simp [JSValue.truthy]

theorem start_of_blank (apiUrl : Option String) (s : FormState)
    (h : jsTrim s.question = "") : askQuestionStart apiUrl s = (s, []) := by
  simp [askQuestionStart, JSValue.truthy, h]

theorem start_of_valid (apiUrl : Option String) (s : FormState)
    (h : jsTrim s.question ≠ "") :
    askQuestionStart apiUrl s =
      ({ question := s.question, answer := .str "", loading := true },
       [{ method := "POST", url := askUrl apiUrl,
          data := .obj [("question", .str s.question)] }]) := by
  simp [askQuestionStart, JSValue.truthy, h, setLoading, setAnswer, axiosPost]

theorem resume_rejected (e : JSValue) (s : FormState) :
    askQuestionResume (.rejected e) s =
      ({ question := s.question, answer := .str errorMessage, loading := false }, [e]) := by
  simp [askQuestionResume, tryBlock, catchBlock, finallyBlock, setAnswer, setLoading]

theorem resume_loading (o : Outcome) (s : FormState) :
    (askQuestionResume o s).1.loading = false := by
  unfold askQuestionResume
  cases h : tryBlock o s <;> simp [finallyBlock, setLoading]

theorem resume_question (o : Outcome) (s : FormState) :
    (askQuestionResume o s).1.question = s.question := by
  unfold askQuestionResume
  cases o with
  | rejected e => simp [tryBlock, catchBlock, finallyBlock, setAnswer, setLoading]
  | fulfilled r =>
    cases h1 : r.getProp "data" with
    | error e =>
      simp [tryBlock, h1, bind, Except.bind, catchBlock, finallyBlock, setAnswer, setLoading]
    | ok d =>
      cases h2 : d.getProp "answer" with
      | error e =>
        simp [tryBlock, h1, h2, bind, Except.bind, catchBlock, finallyBlock, setAnswer,
          setLoading]
      | ok a =>
        simp [tryBlock, h1, h2, bind, Except.bind, pure, Except.pure, finallyBlock,
          setAnswer, setLoading]

theorem resume_answer (o : Outcome) (s : FormState) :
    (askQuestionResume o s).1.answer = written o := by
  unfold written askQuestionResume
  cases o with
  | rejected e => simp [tryBlock, catchBlock, finallyBlock, setAnswer, setLoading]
  | fulfilled r =>
    cases h1 : r.getProp "data" with
    | error e =>
      simp [tryBlock, h1, bind, Except.bind, catchBlock, finallyBlock, setAnswer, setLoading]
    | ok d =>
      cases h2 : d.getProp "answer" with
      | error e =>
        simp [tryBlock, h1, h2, bind, Except.bind, catchBlock, finallyBlock, setAnswer,
          setLoading]
      | ok a =>
        simp [tryBlock, h1, h2, bind, Except.bind, pure, Except.pure, finallyBlock,
          setAnswer, setLoading]

theorem resume_fulfilled (r d a : JSValue) (s : FormState)
    (h1 : r.getProp "data" = .ok d) (h2 : d.getProp "answer" = .ok a) :
    askQuestionResume (.fulfilled r) s =
      ({ question := s.question, answer := a, loading := false }, []) := by
  simp [askQuestionResume, tryBlock, h1, h2, bind, Except.bind, pure, Except.pure,
    finallyBlock, setAnswer, setLoading]

theorem resume_throws (r e : JSValue) (s : FormState)
    (h1 : r.getProp "data" >>= (fun d => d.getProp "answer") = .error e) :
    askQuestionResume (.fulfilled r) s =
      ({ question := s.question, answer := .str errorMessage, loading := false }, [e]) := by
  have : tryBlock (.fulfilled r) s = .error e := by
    simp only [tryBlock]
    cases h : r.getProp "data" with
    | error e1 => simp [h, bind, Except.bind] at h1 ⊢; exact h1
    | ok d =>
      simp [h, bind, Except.bind] at h1 ⊢
      simp [h1]
  simp [askQuestionResume, this, catchBlock, finallyBlock, setAnswer, setLoading]

theorem askQuestion_of_valid (apiUrl : Option String) (endpoint : Request → Outcome)
    (s : FormState) (h : jsTrim s.question ≠ "") :
    askQuestion apiUrl endpoint s =
      let req : Request := { method := "POST", url := askUrl apiUrl,
                             data := .obj [("question", .str s.question)] }
      let r := askQuestionResume (endpoint req)
        { question := s.question, answer := .str "", loading := true }
      { form := r.1, requests := [req], logged := r.2 } := by
  simp [askQuestion, start_of_valid apiUrl s h]

/-! ## The guard -/

/-- C1. When the trimmed question is the empty string, a click issues no
request and leaves `question`, `answer` and `loading` as they were: the
synchronous part returns the input state and no request, the completed call
is the input state with nothing sent or logged, and the click is a stutter
step of the transition system. -/
theorem guard_blank_is_noop (apiUrl : Option String) (endpoint : Request → Outcome)
    (w : World) (h : jsTrim w.form.question = "") :
    askQuestionStart apiUrl w.form = (w.form, []) ∧
    askQuestion apiUrl endpoint w.form =
      { form := w.form, requests := [], logged := [] } ∧
    step apiUrl w .submit = some w := by
  refine ⟨start_of_blank apiUrl w.form h, ?_, ?_⟩
  · simp [askQuestion, start_of_blank apiUrl w.form h]
  · simp [step, start_of_blank apiUrl w.form h]

theorem guard_blank_is_noop_witness :
    jsTrim " \t\n" = "" ∧
    askQuestionStart (some "http://api")
        { question := " \t\n", answer := .str "21 C", loading := false } =
      ({ question := " \t\n", answer := .str "21 C", loading := false }, []) :=
  ⟨by decide,
   (guard_blank_is_noop (some "http://api") (fun _ => .rejected .null)
      { form := { question := " \t\n", answer := .str "21 C", loading := false },
        pending := [], logged := [] } (by decide)).1⟩

/-! ## The request -/

/-- C2. With a non-blank question and base URL `base`, a click issues exactly
one request: a POST to `base ++ "/ask"` whose body is `{ question }` with the
question text exactly as held in state (untrimmed). -/
theorem submit_issues_one_post (base : String) (endpoint : Request → Outcome)
    (s : FormState) (h : jsTrim s.question ≠ "") :
    (askQuestionStart (some base) s).2 =
      [{ method := "POST", url := base ++ "/ask",
         data := .obj [("question", .str s.question)] }] ∧
    (askQuestion (some base) endpoint s).requests =
      [{ method := "POST", url := base ++ "/ask",
         data := .obj [("question", .str s.question)] }] ∧
    ((askQuestionStart (some base) s).2.map
        (fun req => req.data.getProp "question")) = [.ok (.str s.question)] := by
  refine ⟨?_, ?_, ?_⟩
  · simp [start_of_valid (some base) s h, askUrl]
  · simp [askQuestion_of_valid (some base) endpoint s h, askUrl]
  · simp [start_of_valid (some base) s h, JSValue.getProp, List.lookup]

theorem submit_issues_one_post_witness :
    jsTrim " Is room 3 humid? " ≠ "" ∧
    (askQuestionStart (some "http://api")
        { question := " Is room 3 humid? ", answer := .str "", loading := false }).2 =
      [{ method := "POST", url := "http://api" ++ "/ask",
         data := .obj [("question", .str " Is room 3 humid? ")] }] :=
  ⟨by decide,
   (submit_issues_one_post "http://api" (fun _ => .rejected .null)
      { question := " Is room 3 humid? ", answer := .str "", loading := false }
      (by decide)).1⟩

/-! ## Success and failure -/

/-- C3. With a non-blank question and a fulfilled response whose
`data.answer` is the text `a`, the completed call leaves `answer = a` and
`loading = false` (also when the continuation runs on a state `mid` changed by
keystrokes in the meantime); asking "What was the CO2 level yesterday?" of an
endpoint answering "42 ppm average" shows exactly that text. -/
theorem success_stores_answer (apiUrl : Option String) (s mid : FormState)
    (r d : JSValue) (a : String) (h : jsTrim s.question ≠ "")
    (h1 : r.getProp "data" = .ok d) (h2 : d.getProp "answer" = .ok (.str a)) :
    (askQuestion apiUrl (fun _ => .fulfilled r) s).form.answer = .str a ∧
    (askQuestion apiUrl (fun _ => .fulfilled r) s).form.loading = false ∧
    (askQuestionResume (.fulfilled r) mid).1.answer = .str a ∧
    (askQuestionResume (.fulfilled r) mid).1.loading = false ∧
    (askQuestion apiUrl (fun _ => .fulfilled (answerResponse "42 ppm average"))
        (setQuestion "What was the CO2 level yesterday?" s)).form.answer =
      .str "42 ppm average" ∧
    (render (askQuestion apiUrl
        (fun _ => .fulfilled (answerResponse "42 ppm average"))
        (setQuestion "What was the CO2 level yesterday?" s)).form).slot.shownText =
      some "42 ppm average" := by
  have hq : jsTrim (setQuestion "What was the CO2 level yesterday?" s).question ≠ "" := by
    simp only [setQuestion]; decide
  have hr : ∀ t : FormState,
      askQuestionResume (.fulfilled (answerResponse "42 ppm average")) t =
        ({ question := t.question, answer := .str "42 ppm average", loading := false },
         []) := fun t =>
    resume_fulfilled _ (.obj [("answer", .str "42 ppm average")]) _ t
      (by simp [answerResponse, JSValue.getProp, List.lookup])
      (by simp [JSValue.getProp, List.lookup])
  refine ⟨?_, ?_, ?_, ?_, ?_, ?_⟩
  · simp [askQuestion_of_valid apiUrl _ s h, resume_fulfilled r d (.str a) _ h1 h2]
  · simp [askQuestion_of_valid apiUrl _ s h, resume_fulfilled r d (.str a) _ h1 h2]
  · simp [resume_fulfilled r d (.str a) mid h1 h2]
  · simp [resume_fulfilled r d (.str a) mid h1 h2]
  · simp [askQuestion_of_valid apiUrl _ _ hq, hr]
  · simp [askQuestion_of_valid apiUrl _ _ hq, hr, render, JSValue.truthy, Slot.shownText,
      reactText]

theorem success_stores_answer_witness :
    jsTrim "What was the CO2 level yesterday?" ≠ "" ∧
    (askQuestion (some "http://api")
        (fun _ => .fulfilled
          (.obj [("status", .num ⟨200, by decide⟩), ("data", .obj [("answer", .str "42 ppm average")])]))
        { question := "What was the CO2 level yesterday?", answer := .str "old",
          loading := false }).form.answer = .str "42 ppm average" :=
  ⟨by decide,
   (success_stores_answer (some "http://api")
      { question := "What was the CO2 level yesterday?", answer := .str "old",
        loading := false } mount
      (.obj [("status", .num ⟨200, by decide⟩), ("data", .obj [("answer", .str "42 ppm average")])])
      (.obj [("answer", .str "42 ppm average")]) "42 ppm average"
      (by decide) (by simp [JSValue.getProp, List.lookup])
      (by simp [JSValue.getProp, List.lookup])).1⟩

/-- C4. With a non-blank question and a rejected request, whatever the error
value, the completed call leaves `answer = "Error contacting server."` and
`loading = false` (also when the continuation runs on a state `mid` changed by
keystrokes in the meantime), and the error is what gets logged. -/
theorem failure_shows_fixed_message (apiUrl : Option String) (s mid : FormState)
    (e : JSValue) (h : jsTrim s.question ≠ "") :
    (askQuestion apiUrl (fun _ => .rejected e) s).form.answer =
      .str "Error contacting server." ∧
    (askQuestion apiUrl (fun _ => .rejected e) s).form.loading = false ∧
    (askQuestion apiUrl (fun _ => .rejected e) s).logged = [e] ∧
    (askQuestionResume (.rejected e) mid).1.answer = .str "Error contacting server." ∧
    (askQuestionResume (.rejected e) mid).1.loading = false := by
  simp [askQuestion_of_valid apiUrl _ s h, resume_rejected, errorMessage]

theorem failure_shows_fixed_message_witness :
    jsTrim "Is room 3 humid?" ≠ "" ∧
    (askQuestion none (fun _ => .rejected (.obj [("message", .str "Network Error")]))
        { question := "Is room 3 humid?", answer := .str "old", loading := false }
      ).form.answer = .str "Error contacting server." :=
  ⟨by decide,
   (failure_shows_fixed_message none
      { question := "Is room 3 humid?", answer := .str "old", loading := false } mount
      (.obj [("message", .str "Network Error")]) (by decide)).1⟩

/-! ## Malformed responses -/

/-- C5, as stated, fails: a fulfilled response whose body is an object with no
`answer` field does not take the failure path. `response.data.answer` reads
as `undefined`, nothing throws, and `undefined` is stored in `answer`. -/
theorem malformed_body_not_error_path :
    jsTrim "Is room 3 humid?" ≠ "" ∧
    (JSValue.obj [("status", .num ⟨200, by decide⟩), ("data", .obj [])]).getProp "data" =
      .ok (.obj []) ∧
    (askQuestion (some "http://api")
        (fun _ => .fulfilled (.obj [("status", .num ⟨200, by decide⟩), ("data", .obj [])]))
        { question := "Is room 3 humid?", answer := .str "", loading := false }
      ).form.answer = .undefined ∧
    (askQuestion (some "http://api")
        (fun _ => .fulfilled (.obj [("status", .num ⟨200, by decide⟩), ("data", .obj [])]))
        { question := "Is room 3 humid?", answer := .str "", loading := false }
      ).form.answer ≠ .str "Error contacting server." := by
  have hq : jsTrim "Is room 3 humid?" ≠ "" := by decide
  have hr := resume_fulfilled (.obj [("status", .num ⟨200, by decide⟩), ("data", .obj [])]) (.obj [])
    .undefined { question := "Is room 3 humid?", answer := .str "", loading := true }
    (by simp [JSValue.getProp, List.lookup]) (by simp [JSValue.getProp, List.lookup])
  refine ⟨hq, by simp [JSValue.getProp, List.lookup], ?_, ?_⟩
  · simp [askQuestion_of_valid (some "http://api") _
      { question := "Is room 3 humid?", answer := .str "", loading := false } hq, hr]
  · simp [askQuestion_of_valid (some "http://api") _
      { question := "Is room 3 humid?", answer := .str "", loading := false } hq, hr]

/-- C5, amended. For a non-blank question and a fulfilled response: when
`response.data` is `undefined` or `null` (there is no body to read from) the
property read throws and the call ends on the failure path, with
`answer = "Error contacting server."`; when `response.data` is an object
without an `answer` field the call ends with `answer = undefined`, nothing
logged and no response block rendered. In both cases `loading = false`. -/
theorem malformed_body_outcomes (apiUrl : Option String) (s : FormState) (r : JSValue)
    (h : jsTrim s.question ≠ "") :
    (r.getProp "data" = .ok .undefined ∨ r.getProp "data" = .ok .null →
      (askQuestion apiUrl (fun _ => .fulfilled r) s).form.answer =
        .str "Error contacting server." ∧
      (askQuestion apiUrl (fun _ => .fulfilled r) s).form.loading = false) ∧
    (∀ fields : List (String × JSValue),
      r.getProp "data" = .ok (.obj fields) → fields.lookup "answer" = none →
      (askQuestion apiUrl (fun _ => .fulfilled r) s).form.answer = .undefined ∧
      (askQuestion apiUrl (fun _ => .fulfilled r) s).form.loading = false ∧
      (askQuestion apiUrl (fun _ => .fulfilled r) s).logged = [] ∧
      (render (askQuestion apiUrl (fun _ => .fulfilled r) s).form).slot.isResponse =
        false) := by
  constructor
  · intro hd
    have ht : r.getProp "data" >>= (fun d => d.getProp "answer") = .error typeError := by
      rcases hd with hd | hd <;> rw [hd] <;> rfl
    simp [askQuestion_of_valid apiUrl _ s h, resume_throws r typeError _ ht, errorMessage]
  · intro fields hd hl
    have hr := fun t => resume_fulfilled r (.obj fields) .undefined t hd
      (by simp [JSValue.getProp, hl])
    simp [askQuestion_of_valid apiUrl _ s h, hr, render, JSValue.truthy, Slot.isResponse]

theorem malformed_body_outcomes_witness :
    jsTrim "Is room 3 humid?" ≠ "" ∧
    (askQuestion none (fun _ => .fulfilled (.obj [("status", .num ⟨204, by decide⟩)]))
        { question := "Is room 3 humid?", answer := .str "old", loading := false }
      ).form.answer = .str "Error contacting server." ∧
    (askQuestion none (fun _ => .fulfilled (.obj [("data", .obj [("text", .str "hi")])]))
        { question := "Is room 3 humid?", answer := .str "old", loading := false }
      ).form.answer = .undefined :=
  ⟨by decide,
   ((malformed_body_outcomes none
      { question := "Is room 3 humid?", answer := .str "old", loading := false }
      (.obj [("status", .num ⟨204, by decide⟩)]) (by decide)).1
        (Or.inl (by simp [JSValue.getProp, List.lookup]))).1,
   ((malformed_body_outcomes none
      { question := "Is room 3 humid?", answer := .str "old", loading := false }
      (.obj [("data", .obj [("text", .str "hi")])]) (by decide)).2
        [("text", .str "hi")] (by simp [JSValue.getProp, List.lookup])
        (by simp [List.lookup])).1⟩

/-! ## Start of a submission -/

/-- C6. With a non-blank question and any prior answer, the state right after
the click, before the request settles, has `answer = ""`, `loading = true`
and the question unchanged; the response block is not rendered and the button
shows its busy label. -/
theorem submit_clears_answer (apiUrl : Option String) (w : World)
    (h : jsTrim w.form.question ≠ "") :
    (askQuestionStart apiUrl w.form).1 =
      { question := w.form.question, answer := .str "", loading := true } ∧
    (step apiUrl w .submit).map (fun w1 => w1.form) =
      some { question := w.form.question, answer := .str "", loading := true } ∧
    (render (askQuestionStart apiUrl w.form).1).slot.isResponse = false ∧
    (render (askQuestionStart apiUrl w.form).1).button = "Asking..." := by
  simp [step, start_of_valid apiUrl w.form h, render, JSValue.truthy, Slot.isResponse]

theorem submit_clears_answer_witness :
    jsTrim "Is room 3 humid?" ≠ "" ∧
    (askQuestionStart none
        { question := "Is room 3 humid?", answer := .str "42 ppm average",
          loading := false }).1 =
      { question := "Is room 3 humid?", answer := .str "", loading := true } :=
  ⟨by decide,
   (submit_clears_answer none
      { form := { question := "Is room 3 humid?", answer := .str "42 ppm average",
                  loading := false },
        pending := [], logged := [] } (by decide)).1⟩

/-! ## Sequential submissions -/

/-- C8. For a non-blank question and a deterministic endpoint (any function of
the request, hence of the question text it carries), submitting, waiting for
the result, then submitting the same question again and waiting, sends the
same request and leaves the same `answer` after the second completion as after
the first, with `loading = false` both times. -/
theorem sequential_submits_agree (apiUrl : Option String) (endpoint : Request → Outcome)
    (s : FormState) (h : jsTrim s.question ≠ "") :
    (askQuestion apiUrl endpoint (askQuestion apiUrl endpoint s).form).form.answer =
      (askQuestion apiUrl endpoint s).form.answer ∧
    (askQuestion apiUrl endpoint s).form.loading = false ∧
    (askQuestion apiUrl endpoint (askQuestion apiUrl endpoint s).form).form.loading =
      false ∧
    (askQuestion apiUrl endpoint (askQuestion apiUrl endpoint s).form).requests =
      (askQuestion apiUrl endpoint s).requests := by
  have hq : (askQuestion apiUrl endpoint s).form.question = s.question := by
    simp [askQuestion_of_valid apiUrl endpoint s h, resume_question]
  have h2 : jsTrim (askQuestion apiUrl endpoint s).form.question ≠ "" := by
    rw [hq]; exact h
  refine ⟨?_, ?_, ?_, ?_⟩
  · rw [askQuestion_of_valid apiUrl endpoint _ h2, hq]
    simp [askQuestion_of_valid apiUrl endpoint s h, resume_answer]
  · simp [askQuestion_of_valid apiUrl endpoint s h, resume_loading]
  · rw [askQuestion_of_valid apiUrl endpoint _ h2]
    simp [resume_loading]
  · rw [askQuestion_of_valid apiUrl endpoint _ h2, hq]
    simp [askQuestion_of_valid apiUrl endpoint s h]

theorem sequential_submits_agree_witness :
    jsTrim "Is room 3 humid?" ≠ "" ∧
    (askQuestion none (fun _ => .fulfilled (answerResponse "55 %"))
        (askQuestion none (fun _ => .fulfilled (answerResponse "55 %"))
          { question := "Is room 3 humid?", answer := .str "old", loading := false }
        ).form).form.answer =
      (askQuestion none (fun _ => .fulfilled (answerResponse "55 %"))
        { question := "Is room 3 humid?", answer := .str "old", loading := false }
      ).form.answer :=
  ⟨by decide,
   (sequential_submits_agree none (fun _ => .fulfilled (answerResponse "55 %"))
      { question := "Is room 3 humid?", answer := .str "old", loading := false }
      (by decide)).1⟩

/-! ## Display -/

/-- C9, as stated, fails: `answer` holds whatever `response.data.answer` was,
and the block depends on that value being truthy, not on its being a non-empty
text. After a success response `{ data: {} }` the answer is `undefined`, which
is not the empty string, and no block is rendered; with answer `true` the block
is rendered but shows no text; with a plain object the block is present in the
output and React rejects its child. -/
theorem response_block_not_iff_nonempty :
    ¬ (∀ s : FormState, (render s).slot.isResponse = true ↔ s.answer ≠ .str "") ∧
    (askQuestion none (fun _ => .fulfilled (.obj [("data", .obj [])]))
        { question := "Is room 3 humid?", answer := .str "", loading := false }
      ).form.answer = .undefined ∧
    (render (askQuestion none (fun _ => .fulfilled (.obj [("data", .obj [])]))
        { question := "Is room 3 humid?", answer := .str "", loading := false }
      ).form).slot.isResponse = false ∧
    (render { question := "", answer := .bool true, loading := false }).slot.isResponse =
      true ∧
    (render { question := "", answer := .bool true, loading := false }).slot.shownText =
      some "" ∧
    (render { question := "", answer := .num ⟨0, by decide⟩, loading := false }
      ).slot.isResponse = false ∧
    (render { question := "", answer := .obj [], loading := false }).slot.isResponse =
      true ∧
    (render { question := "", answer := .obj [], loading := false }).slot.shownText =
      none := by
  have hq : jsTrim "Is room 3 humid?" ≠ "" := by decide
  have hr := resume_fulfilled (.obj [("data", .obj [])]) (.obj []) .undefined
    { question := "Is room 3 humid?", answer := .str "", loading := true }
    (by simp [JSValue.getProp, List.lookup]) (by simp [JSValue.getProp, List.lookup])
  refine ⟨?_, ?_, ?_, ?_, ?_, ?_, ?_, ?_⟩
  · intro hall
    have h := (hall { question := "", answer := .undefined, loading := false }).2
      (by simp)
    simp [render, JSValue.truthy, Slot.isResponse] at h
  · simp [askQuestion_of_valid none _
      { question := "Is room 3 humid?", answer := .str "", loading := false } hq, hr]
  · simp [askQuestion_of_valid none _
      { question := "Is room 3 humid?", answer := .str "", loading := false } hq, hr,
      render, JSValue.truthy, Slot.isResponse]
  · simp [render, JSValue.truthy, Slot.isResponse]
  · simp [render, JSValue.truthy, Slot.shownText, reactText]
  · simp [render, JSValue.truthy, Slot.isResponse]
  · simp [render, JSValue.truthy, Slot.isResponse]
  · simp [render, JSValue.truthy, Slot.shownText, reactText]

/-- C9, amended. For every state, the response block (heading "AI's Response:"
with the answer as its child) is in the output exactly when the answer value
is truthy, and what it shows is that value as React renders it. When the
answer is a text `a` this is exactly when `a` is non-empty, and the text shown
is then `a` itself; when `a` is empty the slot holds only the empty string and
no block is rendered. -/
theorem response_block_iff_truthy (s : FormState) (q a : String) (l : Bool) :
    (render s).slot.isResponse = s.answer.truthy ∧
    (render s).slot =
      (if s.answer.truthy then Slot.response "AI's Response:" s.answer
       else Slot.value s.answer) ∧
    (render s).slot.shownText = (if s.answer.truthy then reactText s.answer else none) ∧
    ((render { question := q, answer := .str a, loading := l }).slot.isResponse = true
      ↔ a ≠ "") ∧
    (render { question := q, answer := .str a, loading := l }).slot =
      (if a = "" then Slot.value (.str "") else Slot.response "AI's Response:" (.str a)) ∧
    (render { question := q, answer := .str a, loading := l }).slot.heading =
      (if a = "" then none else some "AI's Response:") ∧
    (render { question := q, answer := .str a, loading := l }).slot.shownText =
      (if a = "" then none else some a) := by
  refine ⟨?_, ?_, ?_, ?_⟩
  · cases h : s.answer.truthy <;> simp [render, h, Slot.isResponse]
  · rfl
  · cases h : s.answer.truthy <;> simp [render, h, Slot.shownText]
  · by_cases ha : a = ""
    · subst ha
      simp [render, JSValue.truthy, Slot.isResponse, Slot.heading, Slot.shownText]
    · simp [render, JSValue.truthy, Slot.isResponse, Slot.heading, Slot.shownText,
        reactText, ha]

/-! ## The loading flag -/

theorem accepted_iff (s : FormState) : accepted s = true ↔ jsTrim s.question ≠ "" := by
  simp [accepted, JSValue.truthy]

theorem step_keystroke (apiUrl : Option String) (w : World) (v : String) :
    step apiUrl w (.keystroke v) = some { w with form := setQuestion v w.form } := rfl

theorem step_submit_blank (apiUrl : Option String) (w : World)
    (h : jsTrim w.form.question = "") : step apiUrl w .submit = some w := by
  simp [step, start_of_blank apiUrl w.form h]

theorem step_submit_valid (apiUrl : Option String) (w : World)
    (h : jsTrim w.form.question ≠ "") :
    step apiUrl w .submit =
      some { form := { question := w.form.question, answer := .str "", loading := true },
             pending := w.pending ++
               [{ method := "POST", url := askUrl apiUrl,
                  data := .obj [("question", .str w.form.question)] }],
             logged := w.logged } := by
  simp [step, start_of_valid apiUrl w.form h]

theorem step_resolve (apiUrl : Option String) (w : World) (i : Nat) (o : Outcome)
    (h : i < w.pending.length) :
    step apiUrl w (.resolve i o) =
      some { form := (askQuestionResume o w.form).1, pending := w.pending.eraseIdx i,
             logged := w.logged ++ (askQuestionResume o w.form).2 } := by
  simp [step, h]

theorem loading_needs_pending (apiUrl : Option String) (w : World)
    (hw : Reachable apiUrl w) : w.form.loading = true → w.pending ≠ [] := by
  induction hw with
  | mount => simp [mountWorld, mount]
  | @step w w1 e _ hs ih =>
    cases e with
    | keystroke v =>
      rw [step_keystroke] at hs
      cases hs
      simpa [setQuestion] using ih
    | submit =>
      by_cases hb : jsTrim w.form.question = ""
      · rw [step_submit_blank apiUrl w hb] at hs
        cases hs
        exact ih
      · rw [step_submit_valid apiUrl w hb] at hs
        cases hs
        simp
    | resolve i o =>
      by_cases hi : i < w.pending.length
      · rw [step_resolve apiUrl w i o hi] at hs
        cases hs
        simp [resume_loading]
      · simp [step, hi] at hs

theorem quiet_trace (apiUrl : Option String) (es : List Event) :
    ∀ w : World, quiet w es = true →
      ∀ x ∈ trace apiUrl w es, x.form.loading = w.form.loading ∧ x.pending = w.pending := by
  induction es with
  | nil =>
    intro w _ x hx
    simp [trace] at hx
    simp [hx]
  | cons e es ih =>
    intro w hq x hx
    cases e with
    | keystroke v =>
      simp only [quiet] at hq
      simp only [trace, step_keystroke, List.mem_cons] at hx
      rcases hx with hx | hx
      · simp [hx]
      · simpa [setQuestion] using ih _ hq x hx
    | submit =>
      simp only [quiet, Bool.and_eq_true, Bool.not_eq_true', ← Bool.not_eq_true,
        accepted_iff, not_not] at hq
      simp only [trace, step_submit_blank apiUrl w hq.1, List.mem_cons] at hx
      rcases hx with hx | hx
      · simp [hx]
      · exact ih w hq.2 x hx
    | resolve i o => simp [quiet] at hq

theorem run_mem_trace (apiUrl : Option String) (es : List Event) :
    ∀ w w1 : World, run apiUrl w es = some w1 → w1 ∈ trace apiUrl w es := by
  induction es with
  | nil =>
    intro w w1 h
    simp [run] at h
    simp [trace, h]
  | cons e es ih =>
    intro w w1 h
    cases hs : step apiUrl w e with
    | none => simp [run, hs] at h
    | some w2 =>
      simp only [run, hs] at h
      simp only [trace, hs, List.mem_cons]
      exact Or.inr (ih w2 w1 h)

/-- C7. In every world reachable from mount, `loading = true` implies that
some request is outstanding. Along a run from mount with one accepted click
and its resolution, all other events being keystrokes or clicks stopped by the
guard, `loading` is false in every world up to the click (mount included),
true in every world from the click up to the resolution, and false in every
world from the resolution on. -/
theorem loading_invariant (apiUrl : Option String) :
    (∀ w : World, Reachable apiUrl w → w.form.loading = true → w.pending ≠ []) ∧
    (∀ (before during after : List Event) (w1 w2 w3 w4 : World) (i : Nat) (o : Outcome),
      quiet mountWorld before = true → run apiUrl mountWorld before = some w1 →
      accepted w1.form = true → step apiUrl w1 .submit = some w2 →
      quiet w2 during = true → run apiUrl w2 during = some w3 →
      step apiUrl w3 (.resolve i o) = some w4 → quiet w4 after = true →
      (∀ x ∈ trace apiUrl mountWorld before, x.form.loading = false) ∧
      (∀ x ∈ trace apiUrl w2 during, x.form.loading = true) ∧
      (∀ x ∈ trace apiUrl w4 after, x.form.loading = false)) := by
  refine ⟨loading_needs_pending apiUrl, ?_⟩
  intro before during after w1 w2 w3 w4 i o hq1 _ hacc hs hq2 hr2 hres hq3
  have hv : jsTrim w1.form.question ≠ "" := (accepted_iff w1.form).1 hacc
  rw [step_submit_valid apiUrl w1 hv] at hs
  have h2 : w2.form.loading = true := by cases hs; rfl
  have h4 : w4.form.loading = false := by
    by_cases hi : i < w3.pending.length
    · rw [step_resolve apiUrl w3 i o hi] at hres
      cases hres
      exact resume_loading o w3.form
    · simp [step, hi] at hres
  refine ⟨fun x hx => ?_, fun x hx => ?_, fun x hx => ?_⟩
  · simpa [mountWorld, mount] using (quiet_trace apiUrl before mountWorld hq1 x hx).1
  · rw [(quiet_trace apiUrl during w2 hq2 x hx).1, h2]
  · rw [(quiet_trace apiUrl after w4 hq3 x hx).1, h4]

theorem loading_invariant_witness :
    Reachable none
      { form := { question := "hi", answer := .str "", loading := true },
        pending := [{ method := "POST", url := "undefined/ask",
                      data := .obj [("question", .str "hi")] }],
        logged := [] } ∧
    (({ form := { question := "hi", answer := .str "", loading := true },
        pending := [{ method := "POST", url := "undefined/ask",
                      data := .obj [("question", .str "hi")] }],
        logged := [] } : World).form.loading = true →
     ({ form := { question := "hi", answer := .str "", loading := true },
        pending := [{ method := "POST", url := "undefined/ask",
                      data := .obj [("question", .str "hi")] }],
        logged := [] } : World).pending ≠ []) ∧
    ((∀ x ∈ trace none mountWorld [.submit, .keystroke "hi"], x.form.loading = false) ∧
     (∀ x ∈ trace none
        { form := { question := "hi", answer := .str "", loading := true },
          pending := [{ method := "POST", url := "undefined/ask",
                        data := .obj [("question", .str "hi")] }],
          logged := [] } [.keystroke " "], x.form.loading = true) ∧
     (∀ x ∈ trace none
        { form := { question := " ", answer := .str "Error contacting server.",
                    loading := false },
          pending := [], logged := [.null] } [.submit], x.form.loading = false)) :=
  have hr : Reachable none
      { form := { question := "hi", answer := .str "", loading := true },
        pending := [{ method := "POST", url := "undefined/ask",
                      data := .obj [("question", .str "hi")] }],
        logged := [] } :=
    Reachable.step .submit (Reachable.step (.keystroke "hi") Reachable.mount rfl) rfl
  ⟨hr, (loading_invariant none).1 _ hr,
   (loading_invariant none).2 [.submit, .keystroke "hi"] [.keystroke " "] [.submit]
      { form := { question := "hi", answer := .str "", loading := false },
        pending := [], logged := [] }
      { form := { question := "hi", answer := .str "", loading := true },
        pending := [{ method := "POST", url := "undefined/ask",
                      data := .obj [("question", .str "hi")] }],
        logged := [] }
      { form := { question := " ", answer := .str "", loading := true },
        pending := [{ method := "POST", url := "undefined/ask",
                      data := .obj [("question", .str "hi")] }],
        logged := [] }
      { form := { question := " ", answer := .str "Error contacting server.",
                  loading := false },
        pending := [], logged := [.null] }
      0 (.rejected .null)
      (by decide) rfl (by decide) rfl (by decide) rfl rfl (by decide)⟩

/-! ## Overlapping submissions -/

theorem written_answerResponse (a : String) :
    written (.fulfilled (answerResponse a)) = .str a := by
  simp [written, resume_fulfilled (answerResponse a) (.obj [("answer", .str a)]) (.str a)
    mount (by simp [answerResponse, JSValue.getProp, List.lookup])
    (by simp [JSValue.getProp, List.lookup])]

theorem written_rejected (e : JSValue) :
    written (.rejected e) = .str "Error contacting server." := by
  simp [written, resume_rejected, errorMessage]

theorem run_two_submits (apiUrl : Option String) (w : World) (v : String)
    (h1 : jsTrim w.form.question ≠ "") (h2 : jsTrim v ≠ "") :
    run apiUrl w [.submit, .keystroke v, .submit] =
      some { form := { question := v, answer := .str "", loading := true },
             pending := w.pending ++
               [{ method := "POST", url := askUrl apiUrl,
                  data := .obj [("question", .str w.form.question)] },
                { method := "POST", url := askUrl apiUrl,
                  data := .obj [("question", .str v)] }],
             logged := w.logged } := by
  simp only [run, step_submit_valid apiUrl w h1, step_keystroke, setQuestion]
  rw [step_submit_valid apiUrl _ (by simpa using h2)]
  simp

theorem run_append (apiUrl : Option String) (es fs : List Event) :
    ∀ w : World, run apiUrl w (es ++ fs) = (run apiUrl w es).bind (fun x => run apiUrl x fs) := by
  induction es with
  | nil => intro w; simp [run]
  | cons e es ih =>
    intro w
    cases hs : step apiUrl w e with
    | none => simp [run, hs]
    | some w1 => simp [run, hs, ih]

/-- C10. A click is accepted while `loading` is already true, so after two
accepted clicks two requests are outstanding. Whichever order the two then
settle in, `loading` is false after the first settlement although the other
request is still outstanding, and after the second settlement `answer` holds
what the request settling last wrote: its answer text on a well-formed
success, "Error contacting server." on a rejection. -/
theorem overlapping_last_write_wins (apiUrl : Option String) (w : World) (v : String)
    (o1 o2 : Outcome) (h1 : jsTrim w.form.question ≠ "") (h2 : jsTrim v ≠ "") :
    (run apiUrl w [.submit]).map (fun x => x.form.loading) = some true ∧
    (run apiUrl w [.submit, .keystroke v, .submit]).map (fun x => x.pending) =
      some (w.pending ++
        [axiosPost (askUrl apiUrl) (.obj [("question", .str w.form.question)]),
         axiosPost (askUrl apiUrl) (.obj [("question", .str v)])]) ∧
    (run apiUrl w [.submit, .keystroke v, .submit,
        .resolve w.pending.length o1]).map (fun x => (x.form.loading, x.pending)) =
      some (false, w.pending ++
        [axiosPost (askUrl apiUrl) (.obj [("question", .str v)])]) ∧
    (run apiUrl w [.submit, .keystroke v, .submit,
        .resolve w.pending.length o1, .resolve w.pending.length o2]).map
        (fun x => (x.form.answer, x.form.loading, x.pending)) =
      some (written o2, false, w.pending) ∧
    (run apiUrl w [.submit, .keystroke v, .submit,
        .resolve (w.pending.length + 1) o2]).map (fun x => (x.form.loading, x.pending)) =
      some (false, w.pending ++
        [axiosPost (askUrl apiUrl) (.obj [("question", .str w.form.question)])]) ∧
    (run apiUrl w [.submit, .keystroke v, .submit,
        .resolve (w.pending.length + 1) o2, .resolve w.pending.length o1]).map
        (fun x => (x.form.answer, x.form.loading, x.pending)) =
      some (written o1, false, w.pending) ∧
    (∀ a : String, written (.fulfilled (answerResponse a)) = .str a) ∧
    (∀ e : JSValue, written (.rejected e) = .str "Error contacting server.") := by
  have hrun := run_two_submits apiUrl w v h1 h2
  have happ : ∀ fs : List Event,
      run apiUrl w ([.submit, .keystroke v, .submit] ++ fs) = _ :=
    fun fs => run_append apiUrl [.submit, .keystroke v, .submit] fs w
  simp only [hrun, List.cons_append, List.nil_append, Option.some_bind] at happ
  refine ⟨?_, ?_, ?_, ?_, ?_, ?_, written_answerResponse, written_rejected⟩
  · simp [run, step_submit_valid apiUrl w h1]
  · simp [hrun, axiosPost]
  · rw [happ]
    simp [run, step, resume_loading, axiosPost,
      List.eraseIdx_append_of_length_le (Nat.le_refl w.pending.length)]
  · rw [happ]
    simp [run, step, resume_loading, resume_answer,
      List.eraseIdx_append_of_length_le (Nat.le_refl w.pending.length)]
  · rw [happ]
    simp [run, step, resume_loading, axiosPost,
      List.eraseIdx_append_of_length_le (Nat.le_succ w.pending.length)]
  · rw [happ]
    simp [run, step, resume_loading, resume_answer,
      List.eraseIdx_append_of_length_le (Nat.le_succ w.pending.length),
      List.eraseIdx_append_of_length_le (Nat.le_refl w.pending.length)]

theorem overlapping_last_write_wins_witness :
    jsTrim "Is room 3 humid?" ≠ "" ∧ jsTrim "And room 4?" ≠ "" ∧
    (run none (World.mk ⟨"Is room 3 humid?", .str "", false⟩ [] [])
        [.submit, .keystroke "And room 4?", .submit,
         .resolve (0 + 1) (.rejected .null),
         .resolve 0 (.fulfilled (answerResponse "55 %"))]).map
        (fun x => (x.form.answer, x.form.loading, x.pending)) =
      some (written (.fulfilled (answerResponse "55 %")), false, []) :=
  ⟨by decide, by decide,
   (overlapping_last_write_wins none
      (World.mk ⟨"Is room 3 humid?", .str "", false⟩ [] []) "And room 4?"
      (.fulfilled (answerResponse "55 %")) (.rejected .null)
      (by decide) (by decide)).2.2.2.2.2.1⟩

end QuestionForm
